import Mathlib

/-!
Shallow embedding of the three Blender automation scripts of the
Edusei-Workstation repository:

  - scripts/blender_export_video.py      (animation-render script)
  - scripts/blender_export_existing_scene.py  (scene-export script)
  - scripts/blender_jalen_edusei_glass.py     (logo-construction script)

Each script is a straight-line driver of the Blender Python API.  We embed
each script's `main` as a pure Lean function from its environment (initial
scene state, command-line arguments, file-existence oracle, outcome of each
render invocation) to the trace of host-API operations it performs, the
mutated scene state, and its exit status (normal return versus a Python
exception propagating to the host).

Modelling conventions, matched against the source files:
  - Python exceptions are split into the two classes the scripts
    distinguish: RuntimeError and every other Exception subclass
    (FileNotFoundError falls in the second class).  BaseException-only
    classes (KeyboardInterrupt, SystemExit) are outside the model, as the
    scripts never mention them.
  - Python `needle in haystack` on strings is substring containment,
    embedded as an executable check on character lists.
  - os.path.join of a directory and a relative component is embedded with
    Python's rules for a non-absolute right component.
  - The scripts compute project_root = os.path.dirname(script_dir) from the
    interpreter environment (__file__ / sys.argv); the embedding takes the
    resulting project root as an explicit parameter, since it is purely
    environmental.
  - print statements carrying no decision are either dropped or recorded as
    read-only trace events; os.makedirs touches only the filesystem and is
    not part of the scene-state model.
-/

namespace Edusei

/-- Prefix test on character lists: does the first list start the second. -/
def startsWithChars : List Char → List Char → Bool
  | [], _ => true
  | _ :: _, [] => false
  | a :: as, b :: bs => a == b && startsWithChars as bs

/-- Substring containment on character lists, the semantics of Python
string membership `needle in haystack`. -/
def containsChars (needle : List Char) : List Char → Bool
  | [] => startsWithChars needle []
  | b :: bs => startsWithChars needle (b :: bs) || containsChars needle bs

/-- Python `needle in hay` for strings. -/
def pyIn (needle hay : String) : Bool :=
  containsChars needle.data hay.data

/-- Python `s.startswith(pre)`. -/
def pstartswith (s pre : String) : Bool :=
  startsWithChars pre.data s.data

/-- Python `s.endswith(suf)`. -/
def pendswith (s suf : String) : Bool :=
  startsWithChars suf.data.reverse s.data.reverse

/-- Model of Python os.path.join(a, b) for one right-hand component, with
POSIX separator rules: an absolute right component replaces the left, an
empty left yields the right, a left already ending in the separator is not
doubled, and otherwise the separator is inserted. -/
def pjoin (a b : String) : String :=
  if pstartswith b ("/") then b
  else if a = "" then b
  else if pendswith a ("/") then a ++ b
  else a ++ "/" ++ b

/-- Join of several components left to right. -/
def pjoinAll (a : String) (rest : List String) : String :=
  rest.foldl pjoin a

/-- Exception classes the scripts distinguish: RuntimeError versus any
other Exception subclass (FileNotFoundError included). -/
inductive ExcKind
  | runtimeError
  | otherError
  deriving DecidableEq, Repr

/-- A Python exception value: its class and its message str(e). -/
structure Exc where
  kind : ExcKind
  msg : String
  deriving DecidableEq, Repr

/-- Outcome of one invocation of a host operator that can fail. -/
inductive RunResult
  | ok
  | raises (e : Exc)
  deriving DecidableEq, Repr

/-- Exit status of one script run: normal return, or an exception
propagating out of the script to the host application. -/
inductive ScriptExit
  | normal
  | raised (e : Exc)
  deriving DecidableEq, Repr

/-! Animation-render script: scripts/blender_export_video.py. -/

/-- One view layer of the scene, with the two optional denoising
attributes the script probes with hasattr: the Cycles property group's
use_denoising flag, and a direct use_denoising flag; none models an absent
attribute. -/
structure ViewLayer where
  cycles_use_denoising : Option Bool
  use_denoising : Option Bool
  deriving DecidableEq, Repr

/-- The slice of Blender scene state the animation-render script reads and
writes: render settings, Cycles and Eevee sampling settings, view layers
and the render output filepath. -/
structure VideoScene where
  name : String
  frame_start : Int
  frame_end : Int
  film_transparent : Bool
  file_format : String
  color_mode : String
  engine : String
  has_cycles : Bool
  cycles_samples : Nat
  cycles_use_denoising : Bool
  view_layers : List ViewLayer
  has_eevee : Bool
  eevee_taa_render_samples : Nat
  filepath : String
  deriving DecidableEq, Repr

/-- Result of one run of the animation-render script: the scene state at
the moment of each render-operator invocation (in order), the final scene
state, and the exit status. -/
structure VideoRun where
  renderStates : List VideoScene
  finalScene : VideoScene
  exit : ScriptExit
  deriving DecidableEq, Repr

/-- The denoiser-error substring matched by the except branch. -/
def oidn : String := "OpenImageDenoiser"

/-- Output directory of the animation-render script:
os.path.join(project_root, "public", "videos"). -/
def videoOutputDir (root : String) : String :=
  pjoin (pjoin root ("public")) ("videos")

/-- Render output path of the animation-render script:
os.path.join(output_dir, "jalenedusei_animation_####.png"). -/
def videoOutputPath (root : String) : String :=
  pjoin (videoOutputDir root) ("jalenedusei_animation_####.png")

/-- Embedding of main() of scripts/blender_export_video.py.  Parameters:
the initial scene state, the project root, and the outcomes r1 and r2 of
the first and (if reached) second render invocation.  Mirrors the source:
set film_transparent / PNG / RGBA / CYCLES, lower Cycles samples and
disable denoising when the scene has a Cycles property group, set the
output filepath, render; on a RuntimeError whose message contains the
denoiser substring, switch the engine to Eevee and render once more,
swallowing any failure of that retry; re-raise any other RuntimeError; a
non-RuntimeError exception is not caught at all. -/
def videoMain (s0 : VideoScene) (root : String) (r1 r2 : RunResult) : VideoRun :=
  let s1 := { s0 with
    film_transparent := true
    file_format := "PNG"
    color_mode := "RGBA"
    engine := "CYCLES" }
  let s2 :=
    if s1.has_cycles then
      { s1 with
        cycles_samples := 64
        cycles_use_denoising := false
        view_layers := s1.view_layers.map fun vl =>
          { cycles_use_denoising := vl.cycles_use_denoising.map fun _ => false
            use_denoising := vl.use_denoising.map fun _ => false } }
    else s1
  let s3 := { s2 with filepath := videoOutputPath root }
  match r1 with
  | RunResult.ok => ⟨[s3], s3, ScriptExit.normal⟩
  | RunResult.raises e =>
    match e.kind with
    | ExcKind.runtimeError =>
      if pyIn oidn e.msg then
        let s4 := { s3 with engine := "BLENDER_EEVEE" }
        let s5 := if s4.has_eevee then { s4 with eevee_taa_render_samples := 64 } else s4
        match r2 with
        | RunResult.ok => ⟨[s3, s5], s5, ScriptExit.normal⟩
        | RunResult.raises _ => ⟨[s3, s5], s5, ScriptExit.normal⟩
      else ⟨[s3], s3, ScriptExit.raised e⟩
    | ExcKind.otherError => ⟨[s3], s3, ScriptExit.raised e⟩

/-- A concrete initial scene used for witnesses and counterexamples. -/
def sampleScene : VideoScene :=
  { name := "Scene"
    frame_start := 1
    frame_end := 10
    film_transparent := false
    file_format := "OPEN_EXR"
    color_mode := "RGB"
    engine := "BLENDER_WORKBENCH"
    has_cycles := true
    cycles_samples := 1024
    cycles_use_denoising := true
    view_layers := [⟨some true, none⟩]
    has_eevee := true
    eevee_taa_render_samples := 16
    filepath := "" }

/-! Scene-export script: scripts/blender_export_existing_scene.py. -/

/-- One scene object as the scene-export script sees it: its name, its
object type (obj.type), and (for lights) the light data type
(light.data.type). -/
structure SceneObj where
  name : String
  otype : String
  data_type : String
  deriving DecidableEq, Repr

/-- The slice of scene state the scene-export script reads: scene name,
frame range and object list.  The script writes none of it. -/
structure BScene where
  name : String
  frame_start : Int
  frame_end : Int
  objects : List SceneObj
  deriving DecidableEq, Repr

/-- Trace events of the scene-export script: the diagnostic prints (each
carrying the data it reads), the glTF export invocation and the final
file-size report. -/
inductive SEv
  | printSceneInfo (name : String) (fs fe : Int) (nObjects : Nat)
  | printCameras (names : List String)
  | printLights (namesAndTypes : List (String × String))
  | exportGLTF (path : String)
  | reportFileSize (path : String)
  deriving DecidableEq, Repr

/-- Output path of the scene-export script:
os.path.join(project_root, "public", "models", "jaleneduseiwhite.glb"). -/
def sceneOutPath (root : String) : String :=
  pjoin (pjoin (pjoin root ("public")) ("models")) ("jaleneduseiwhite.glb")

/-- Result of one run of the scene-export script: its event trace and the
scene state when it returns. -/
structure SceneRun where
  events : List SEv
  finalScene : BScene
  deriving DecidableEq, Repr

/-- Embedding of main() of scripts/blender_export_existing_scene.py.  The
script prints the scene name, frame range and object count, lists cameras
and lights by filtering the object list, exports the scene to the fixed
GLB path, and reports the written file's size.  It assigns no scene,
object or render field, so the final scene equals the initial scene. -/
def sceneMain (sc : BScene) (root : String) : SceneRun :=
  let cameras := sc.objects.filter fun o => o.otype == "CAMERA"
  let lights := sc.objects.filter fun o => o.otype == "LIGHT"
  { events :=
      [SEv.printSceneInfo sc.name sc.frame_start sc.frame_end sc.objects.length,
       SEv.printCameras (cameras.map SceneObj.name),
       SEv.printLights (lights.map fun o => (o.name, o.data_type)),
       SEv.exportGLTF (sceneOutPath root),
       SEv.reportFileSize (sceneOutPath root)]
    finalScene := sc }

/-! Logo-construction script: scripts/blender_jalen_edusei_glass.py. -/

/-- Rotation as an Euler triple (x, y, z); the numeric literals of the
script are exact decimals, embedded as rationals. -/
abbrev Rot := ℚ × ℚ × ℚ

/-- Trace events of the logo-construction script, one per host-API
operation group of the source.  Scalar property assignments performed
between two operator calls on the same freshly created datablock (text
size, extrusion, bevel, light energy and color, node socket values) are
folded into the event that creates the datablock. -/
inductive LEv
  | readFactorySettings
  | textAdd (body : String)
  | importSVG (path : String)
  | joinCurves
  | convertToMesh
  | originSet
  | cameraAdd
  | lightAdd (energy : ℚ)
  | materialNodes
  | uvProject
  | worldNodes
  | emptyAdd
  | setParent
  | setFrameEnd (n : Nat)
  | keyframeInsert (frame : Nat) (rot : Rot)
  | setRenderSettings
  | exportGLTF (path : String)
  deriving DecidableEq, Repr

/-- The exact decimal literal 6.283185307 of the script (its approximation
of two pi), as a rational. -/
def q2pi : ℚ := 6283185307 / 1000000000

/-- The text body built by create_text_logo. -/
def logoBody : String := "JALEN\nEDUSEI"

/-- One keyframe point of an F-Curve: frame, channel value, interpolation
mode and the two handle types. -/
structure KeyPoint where
  frame : Nat
  value : ℚ
  interpolation : String
  handle_left_type : String
  handle_right_type : String
  deriving DecidableEq, Repr

/-- The three rotation_euler F-Curves (x, y, z channels) of the rotation
empty's action. -/
structure FCurves where
  x : List KeyPoint
  y : List KeyPoint
  z : List KeyPoint
  deriving DecidableEq, Repr

/-- keyframe_insert on data_path rotation_euler: appends one point per
channel at the given frame, carrying the current rotation value; dI and dH
are the host defaults for interpolation and handle type of a fresh point. -/
def insertRotKey (fcs : FCurves) (frame : Nat) (r : Rot) (dI dH : String) : FCurves :=
  { x := fcs.x ++ [⟨frame, r.1, dI, dH, dH⟩]
    y := fcs.y ++ [⟨frame, r.2.1, dI, dH, dH⟩]
    z := fcs.z ++ [⟨frame, r.2.2, dI, dH, dH⟩] }

/-- The loop over all fcurves and keyframe points of the empty's action:
every point becomes BEZIER with FREE left and right handles. -/
def setBezierFree (fcs : FCurves) : FCurves :=
  let f : KeyPoint → KeyPoint := fun kp =>
    { kp with
      interpolation := "BEZIER"
      handle_left_type := "FREE"
      handle_right_type := "FREE" }
  ⟨fcs.x.map f, fcs.y.map f, fcs.z.map f⟩

/-- Result of add_rotation_animation: its trace events, the scene
frame_end it sets, and the final keyframe curves of the empty. -/
structure AnimResult where
  events : List LEv
  frame_end : Nat
  fcurves : FCurves
  deriving DecidableEq, Repr

/-- Embedding of add_rotation_animation of the logo script: add a plain
empty, parent the logo to it, set scene.frame_end, keyframe
rotation_euler = (0, 0, 0) at frame 1 and (0, 6.283185307, 0) at the last
frame, then set every keyframe point to BEZIER with FREE handles. -/
def addRotationAnimation (dI dH : String) (frameEnd : Nat) : AnimResult :=
  let k0 := insertRotKey ⟨[], [], []⟩ 1 (0, 0, 0) dI dH
  let k1 := insertRotKey k0 frameEnd (0, q2pi, 0) dI dH
  { events :=
      [LEv.emptyAdd, LEv.setParent, LEv.setFrameEnd frameEnd,
       LEv.keyframeInsert 1 (0, 0, 0),
       LEv.keyframeInsert frameEnd (0, q2pi, 0)]
    frame_end := frameEnd
    fcurves := setBezierFree k1 }

/-- Embedding of create_text_logo: add the two-line text object and
convert it to a mesh. -/
def createTextLogo : List LEv :=
  [LEv.textAdd logoBody, LEv.convertToMesh]

/-- Embedding of create_from_svg: run the SVG import operator; when that
produced no curve objects, raise FileNotFoundError carrying the no-curves
message and the path; otherwise join the curves, set their bevel, and
convert to a mesh.  curveCount is the number of curve objects the SVG
operator selects. -/
def createFromSvg (path : String) (curveCount : Nat) : List LEv × Option Exc :=
  if curveCount = 0 then
    ([LEv.importSVG path], some ⟨ExcKind.otherError, "No curves in SVG: " ++ path⟩)
  else
    ([LEv.importSVG path, LEv.joinCurves, LEv.convertToMesh], none)

/-- Embedding of setup_scene: camera, the 300 and 200 energy area lights,
the glass material node graph, the smart UV project of the logo mesh, and
finally the world background node graph.  The UV projection precedes the
world-node construction, as in the source. -/
def setupScene : List LEv :=
  [LEv.cameraAdd, LEv.lightAdd 300, LEv.lightAdd 200, LEv.materialNodes,
   LEv.uvProject, LEv.worldNodes]

/-- GLB output path of the logo script:
os.path.join(project_root, "public", "models", "jalen_edusei_glass.glb"). -/
def logoOutPath (root : String) : String :=
  pjoin (pjoin (pjoin root ("public")) ("models")) ("jalen_edusei_glass.glb")

/-- Result of one run of the logo script: trace, exit status, and (when
the run got that far) the scene frame_end and the rotation keyframe
curves. -/
structure LogoRun where
  trace : List LEv
  exit : ScriptExit
  frame_end : Option Nat
  fcurves : Option FCurves
  deriving DecidableEq, Repr

/-- Python slice of argv from the element after the first double-dash
separator token to the end; the empty list when no separator occurs. -/
def afterSep (argv : List String) : List String :=
  match argv.dropWhile (fun a => a != "--") with
  | [] => []
  | _ :: rest => rest

/-- The use_svg test of the logo script's main: there is a first argument
after the separator, it ends with the .svg extension, and it names an
existing file; returns that argument when the test passes. -/
def useSvgArg (argv : List String) (isfile : String → Bool) : Option String :=
  match afterSep argv with
  | a :: _ => if pendswith a (".svg") && isfile a then some a else none
  | [] => none

/-- The tail of the logo script's main after the geometry is built:
center the origin, set up the scene, add the rotation animation with
frame_end 120, set the render settings, and export the GLB. -/
def logoFinish (geo : List LEv) (root : String) (dI dH : String) : LogoRun :=
  let anim := addRotationAnimation dI dH 120
  { trace := geo ++ [LEv.originSet] ++ setupScene ++ anim.events
      ++ [LEv.setRenderSettings, LEv.exportGLTF (logoOutPath root)]
    exit := ScriptExit.normal
    frame_end := some anim.frame_end
    fcurves := some anim.fcurves }

/-- Embedding of scripts/blender_jalen_edusei_glass.py run as a script:
the module-level factory reset, then main().  Parameters: the full host
argv, a file-existence oracle, an oracle giving the number of curve
objects an SVG import yields, the project root, and the host defaults for
fresh keyframe points.  When the use_svg test fails the script silently
builds the text logo instead. -/
def logoMain (argv : List String) (isfile : String → Bool)
    (curveCount : String → Nat) (root : String) (dI dH : String) : LogoRun :=
  match useSvgArg argv isfile with
  | some a =>
    match createFromSvg a (curveCount a) with
    | (evs, some e) =>
        { trace := LEv.readFactorySettings :: evs
          exit := ScriptExit.raised e
          frame_end := none
          fcurves := none }
    | (evs, none) => logoFinish (LEv.readFactorySettings :: evs) root dI dH
  | none => logoFinish (LEv.readFactorySettings :: createTextLogo) root dI dH

/-- Index of the first occurrence of an event in a trace. -/
def evIdx (tr : List LEv) (a : LEv) : Nat :=
  tr.findIdx fun e => e == a

/-- Event a occurs and strictly precedes event b in the trace. -/
abbrev evBefore (tr : List LEv) (a b : LEv) : Prop :=
  a ∈ tr ∧ evIdx tr a < evIdx tr b

/-- The pipeline order asserted by the specification for the logo script,
stated on a trace: geometry conversion precedes the camera/light/material/
world construction, all four of those precede the UV unwrap, the unwrap
precedes the parenting, the parenting precedes the first rotation
keyframe, and the export is the last event. -/
def specClaimedOrder (tr : List LEv) : Prop :=
  evBefore tr LEv.convertToMesh LEv.cameraAdd ∧
  evBefore tr LEv.cameraAdd LEv.uvProject ∧
  evBefore tr LEv.materialNodes LEv.uvProject ∧
  evBefore tr LEv.worldNodes LEv.uvProject ∧
  evBefore tr LEv.uvProject LEv.setParent ∧
  evBefore tr LEv.setParent (LEv.keyframeInsert 1 (0, 0, 0)) ∧
  (∃ p, tr.getLast? = some (LEv.exportGLTF p))

/-- A concrete logo run with no SVG argument, used by witnesses and
counterexamples. -/
def sampleLogoRun : LogoRun :=
  logoMain ["blender", "--background", "--python", "scripts/blender_jalen_edusei_glass.py"]
    (fun _ => false) (fun _ => 0) ("/proj") ("CONSTANT") ("AUTO")

/-! Shared auxiliary lemmas about the string and path model. -/

theorem str_data_append (a b : String) : (a ++ b).data = a.data ++ b.data := by
  cases a; cases b; rfl

theorem str_eq_iff (a b : String) : a = b ↔ a.data = b.data := by
  cases a; cases b
  exact ⟨fun h => by cases h; rfl, fun h => by cases h; rfl⟩

theorem str_append_assoc (a b c : String) : a ++ b ++ c = a ++ (b ++ c) := by
  rw [str_eq_iff]
  simp [str_data_append]

theorem append_ne_empty (root s : String) (h : s.data ≠ []) : root ++ s ≠ "" := by
  intro hc
  rw [str_eq_iff, str_data_append] at hc
  simp at hc
  exact h hc.2

theorem pendswith_slash_append (a b : String) (hb : pendswith b ("/") = false)
    (hbne : b.data ≠ []) : pendswith (a ++ b) ("/") = false := by
  unfold pendswith at hb ⊢
  rw [str_data_append, List.reverse_append]
  cases hr : b.data.reverse with
  | nil =>
    exact absurd (by simpa using congrArg List.reverse hr) hbne
  | cons c l =>
    rw [hr] at hb
    simp [startsWithChars] at hb ⊢
    exact hb

theorem pjoin_flat (a b : String) (h1 : a ≠ "") (h2 : pendswith a ("/") = false)
    (h3 : pstartswith b ("/") = false) : pjoin a b = a ++ ("/" ++ b) := by
  unfold pjoin
  rw [h3, h2]
  simp [h1]
  rw [str_append_assoc]

theorem videoOutputPath_flat (root : String) (h1 : root ≠ "")
    (h2 : pendswith root ("/") = false) :
    videoOutputPath root = root ++ "/public/videos/jalenedusei_animation_####.png" := by
  unfold videoOutputPath videoOutputDir
  rw [pjoin_flat root ("public") h1 h2 (by rfl)]
  rw [show ("/" ++ "public" : String) = "/public" from rfl]
  rw [pjoin_flat _ ("videos") (append_ne_empty root ("/public") (by simp))
    (pendswith_slash_append root ("/public") (by rfl) (by simp)) (by rfl)]
  rw [show ("/" ++ "videos" : String) = "/videos" from rfl, str_append_assoc]
  rw [show ("/public" ++ "/videos" : String) = "/public/videos" from rfl]
  rw [pjoin_flat _ ("jalenedusei_animation_####.png")
    (append_ne_empty root ("/public/videos") (by simp))
    (pendswith_slash_append root ("/public/videos") (by rfl) (by simp)) (by rfl)]
  rw [str_append_assoc]
  rfl

theorem sceneOutPath_flat (root : String) (h1 : root ≠ "")
    (h2 : pendswith root ("/") = false) :
    sceneOutPath root = root ++ "/public/models/jaleneduseiwhite.glb" := by
  unfold sceneOutPath
  rw [pjoin_flat root ("public") h1 h2 (by rfl)]
  rw [show ("/" ++ "public" : String) = "/public" from rfl]
  rw [pjoin_flat _ ("models") (append_ne_empty root ("/public") (by simp))
    (pendswith_slash_append root ("/public") (by rfl) (by simp)) (by rfl)]
  rw [show ("/" ++ "models" : String) = "/models" from rfl, str_append_assoc]
  rw [show ("/public" ++ "/models" : String) = "/public/models" from rfl]
  rw [pjoin_flat _ ("jaleneduseiwhite.glb")
    (append_ne_empty root ("/public/models") (by simp))
    (pendswith_slash_append root ("/public/models") (by rfl) (by simp)) (by rfl)]
  rw [str_append_assoc]
  rfl

theorem logoOutPath_flat (root : String) (h1 : root ≠ "")
    (h2 : pendswith root ("/") = false) :
    logoOutPath root = root ++ "/public/models/jalen_edusei_glass.glb" := by
  unfold logoOutPath
  rw [pjoin_flat root ("public") h1 h2 (by rfl)]
  rw [show ("/" ++ "public" : String) = "/public" from rfl]
  rw [pjoin_flat _ ("models") (append_ne_empty root ("/public") (by simp))
    (pendswith_slash_append root ("/public") (by rfl) (by simp)) (by rfl)]
  rw [show ("/" ++ "models" : String) = "/models" from rfl, str_append_assoc]
  rw [show ("/public" ++ "/models" : String) = "/public/models" from rfl]
  rw [pjoin_flat _ ("jalen_edusei_glass.glb")
    (append_ne_empty root ("/public/models") (by simp))
    (pendswith_slash_append root ("/public/models") (by rfl) (by simp)) (by rfl)]
  rw [str_append_assoc]
  rfl

theorem videoMain_filepath (s0 : VideoScene) (root : String) (r1 r2 : RunResult) :
    (videoMain s0 root r1 r2).finalScene.filepath = videoOutputPath root := by
  unfold videoMain
  rcases r1 with _ | ⟨k, m⟩
  · cases hc : s0.has_cycles <;> simp [hc]
  · cases k
    · by_cases h : pyIn oidn m = true <;>
        cases hc : s0.has_cycles <;> cases he : s0.has_eevee <;> cases r2 <;>
        simp [h, hc, he]
    · cases hc : s0.has_cycles <;> simp [hc]

theorem logoFinish_trace (geo : List LEv) (root dI dH : String) :
    (logoFinish geo root dI dH).trace = geo ++
      [LEv.originSet, LEv.cameraAdd, LEv.lightAdd 300, LEv.lightAdd 200,
       LEv.materialNodes, LEv.uvProject, LEv.worldNodes, LEv.emptyAdd,
       LEv.setParent, LEv.setFrameEnd 120, LEv.keyframeInsert 1 (0, 0, 0),
       LEv.keyframeInsert 120 (0, q2pi, 0), LEv.setRenderSettings,
       LEv.exportGLTF (logoOutPath root)] := by
  simp [logoFinish, addRotationAnimation, setupScene]

theorem useSvgArg_some {argv : List String} {isfile : String → Bool} {a : String}
    (h : useSvgArg argv isfile = some a) :
    (afterSep argv).head? = some a ∧ pendswith a (".svg") = true ∧ isfile a = true := by
  unfold useSvgArg at h
  split at h
  · next b t hs =>
    split at h
    · next hcond =>
      cases h
      simp only [Bool.and_eq_true] at hcond
      exact ⟨by rw [hs]; rfl, hcond.1, hcond.2⟩
    · cases h
  · cases h

theorem useSvgArg_none {argv : List String} {isfile : String → Bool} {a : String}
    (ha : (afterSep argv).head? = some a)
    (hbad : (pendswith a (".svg") && isfile a) = false) :
    useSvgArg argv isfile = none := by
  unfold useSvgArg
  split
  · next b t hs =>
    rw [hs] at ha
    simp only [List.head?_cons, Option.some.injEq] at ha
    cases ha
    rw [if_neg (by simp [hbad])]
  · rfl

/-! Claim C1. -/

/-- Counterexample to claim C1 as stated: a non-RuntimeError exception
whose message does contain the denoiser substring is not caught, so the
script neither switches the engine nor retries (a single render
invocation, and the exception propagates), contrary to the claim's first
half; and a retry failure whose message lacks the substring does not
propagate (the run exits normally), contrary to the claim's second half. -/
theorem videoMain_denoiser_match_not_sufficient :
    ((videoMain sampleScene ("/proj")
        (RunResult.raises ⟨ExcKind.otherError, "Crash in OpenImageDenoiser kernel"⟩)
        RunResult.ok).renderStates.length = 1 ∧
      (videoMain sampleScene ("/proj")
        (RunResult.raises ⟨ExcKind.otherError, "Crash in OpenImageDenoiser kernel"⟩)
        RunResult.ok).exit
        = ScriptExit.raised ⟨ExcKind.otherError, "Crash in OpenImageDenoiser kernel"⟩) ∧
    (videoMain sampleScene ("/proj")
        (RunResult.raises ⟨ExcKind.runtimeError, "OpenImageDenoiser not supported"⟩)
        (RunResult.raises ⟨ExcKind.otherError, "disk full"⟩)).exit
      = ScriptExit.normal := by
  refine ⟨⟨rfl, rfl⟩, ?_⟩
  have hp : pyIn oidn ("OpenImageDenoiser not supported") = true := by decide
  simp [videoMain, hp, sampleScene]

/-- Claim C1 (corrected): only a RuntimeError whose message contains the
denoiser substring triggers the fallback, which switches the engine from
Cycles to Eevee and retries exactly once, for at most two render
invocations in total; a first-invocation failure that is not such a
RuntimeError propagates to the host after a single render invocation.
Failures of the retry itself never propagate (claim C9). -/
theorem videoMain_fallback_retry_once (s0 : VideoScene) (root : String)
    (r1 r2 : RunResult) :
    (videoMain s0 root r1 r2).renderStates.length ≤ 2 ∧
    (∀ e, r1 = RunResult.raises e →
      if e.kind = ExcKind.runtimeError ∧ pyIn oidn e.msg = true then
        ((videoMain s0 root r1 r2).renderStates.map VideoScene.engine)
          = ["CYCLES", "BLENDER_EEVEE"]
      else
        (videoMain s0 root r1 r2).renderStates.length = 1 ∧
        (videoMain s0 root r1 r2).exit = ScriptExit.raised e) := by
  constructor
  · unfold videoMain
    rcases r1 with _ | ⟨k, m⟩
    · cases hc : s0.has_cycles <;> simp [hc]
    · cases k
      · by_cases h : pyIn oidn m = true <;>
          cases hc : s0.has_cycles <;> cases he : s0.has_eevee <;> cases r2 <;>
          simp [h, hc, he]
      · cases hc : s0.has_cycles <;> simp [hc]
  · intro e he
    cases he
    rcases e with ⟨k, m⟩
    cases k
    · by_cases h : pyIn oidn m = true
      · rw [if_pos ⟨rfl, h⟩]
        unfold videoMain
        cases hc : s0.has_cycles <;> cases he2 : s0.has_eevee <;> cases r2 <;>
          simp [h, hc, he2]
      · rw [if_neg (by simp [h])]
        unfold videoMain
        cases hc : s0.has_cycles <;> simp [h, hc]
    · rw [if_neg (by simp)]
      unfold videoMain
      cases hc : s0.has_cycles <;> simp [hc]

/-- Witness for C1: at a concrete RuntimeError carrying the denoiser
substring, the run renders twice, first with Cycles and then with Eevee. -/
theorem videoMain_fallback_retry_once_witness :
    ((videoMain sampleScene ("/proj")
      (RunResult.raises ⟨ExcKind.runtimeError, "Error: OpenImageDenoiser failed"⟩)
      RunResult.ok).renderStates.map VideoScene.engine)
      = ["CYCLES", "BLENDER_EEVEE"] := by
  have h := (videoMain_fallback_retry_once sampleScene ("/proj")
    (RunResult.raises ⟨ExcKind.runtimeError, "Error: OpenImageDenoiser failed"⟩)
    RunResult.ok).2 ⟨ExcKind.runtimeError, "Error: OpenImageDenoiser failed"⟩ rfl
  rw [if_pos ⟨rfl, by decide⟩] at h
  exact h

/-! Claim C9. -/

/-- Claim C9 (confirmed): when the fallback retry itself raises any
exception, that exception is caught and only printed, and the script
returns normally. -/
theorem videoMain_retry_failure_swallowed (s0 : VideoScene) (root : String)
    (e e2 : Exc) (h1 : e.kind = ExcKind.runtimeError)
    (h2 : pyIn oidn e.msg = true) :
    (videoMain s0 root (RunResult.raises e) (RunResult.raises e2)).exit
      = ScriptExit.normal := by
  unfold videoMain
  rcases e with ⟨k, m⟩
  cases h1
  cases hc : s0.has_cycles <;> cases he : s0.has_eevee <;> simp [h2, hc, he]

/-- Witness for C9 at a concrete pair of exceptions. -/
theorem videoMain_retry_failure_swallowed_witness :
    (videoMain sampleScene ("/proj")
      (RunResult.raises ⟨ExcKind.runtimeError, "OpenImageDenoiser device error"⟩)
      (RunResult.raises ⟨ExcKind.otherError, "disk full"⟩)).exit
      = ScriptExit.normal :=
  videoMain_retry_failure_swallowed sampleScene ("/proj")
    ⟨ExcKind.runtimeError, "OpenImageDenoiser device error"⟩
    ⟨ExcKind.otherError, "disk full"⟩ rfl (by decide)

/-! Claim C4. -/

/-- Claim C4 (confirmed): at every render-operator invocation of the
animation-render script, film_transparent is set, the file format is PNG
and the color mode is RGBA; the script establishes all three before the
first render and never unsets them. -/
theorem videoMain_alpha_settings_at_every_render (s0 : VideoScene)
    (root : String) (r1 r2 : RunResult) :
    ((videoMain s0 root r1 r2).renderStates.all fun s =>
      s.film_transparent && (s.file_format == "PNG")
        && (s.color_mode == "RGBA")) = true := by
  unfold videoMain
  rcases r1 with _ | ⟨k, m⟩
  · cases hc : s0.has_cycles <;> simp [hc]
  · cases k
    · by_cases h : pyIn oidn m = true <;>
        cases hc : s0.has_cycles <;> cases he : s0.has_eevee <;> cases r2 <;>
        simp [h, hc, he]
    · cases hc : s0.has_cycles <;> simp [hc]

/-! Claim C2. -/

/-- Counterexample to claim C2 as stated: invoked with a positional
argument naming an SVG file that does not exist, the logo script does not
abort; the use_svg test fails on os.path.isfile, the script silently
builds the text logo instead, and the run completes normally. -/
theorem logoMain_missing_svg_completes_normally :
    (logoMain ["blender", "--", "missing.svg"] (fun _ => false) (fun _ => 0)
      ("/proj") ("CONSTANT") ("AUTO")).exit = ScriptExit.normal ∧
    LEv.textAdd logoBody ∈
      (logoMain ["blender", "--", "missing.svg"] (fun _ => false) (fun _ => 0)
        ("/proj") ("CONSTANT") ("AUTO")).trace := by
  exact ⟨rfl, by decide⟩

/-- Claim C2 (corrected): a positional SVG argument naming a nonexistent
file makes the script fall back to the text logo and complete normally;
the fatal FileNotFoundError path of create_from_svg aborts the script only
when the use_svg test passed (the file exists and has the .svg extension)
but the SVG yields no curve objects. -/
theorem logoMain_missing_svg_not_fatal (argv : List String)
    (isfile : String → Bool) (curveCount : String → Nat) (root dI dH : String) :
    (∀ a, (afterSep argv).head? = some a → isfile a = false →
      (logoMain argv isfile curveCount root dI dH).exit = ScriptExit.normal) ∧
    (∀ a, useSvgArg argv isfile = some a → curveCount a = 0 →
      (logoMain argv isfile curveCount root dI dH).exit
        = ScriptExit.raised ⟨ExcKind.otherError, "No curves in SVG: " ++ a⟩) := by
  constructor
  · intro a ha hno
    have hu : useSvgArg argv isfile = none := useSvgArg_none ha (by simp [hno])
    simp only [logoMain, hu, logoFinish]
  · intro a hu hn
    simp only [logoMain, hu, createFromSvg, hn, ite_true]

/-- Witness for C2 at a concrete missing file. -/
theorem logoMain_missing_svg_not_fatal_witness :
    (logoMain ["blender", "--", "absent.svg"] (fun _ => false) (fun _ => 1)
      ("/proj") ("CONSTANT") ("AUTO")).exit = ScriptExit.normal :=
  (logoMain_missing_svg_not_fatal ["blender", "--", "absent.svg"]
    (fun _ => false) (fun _ => 1) ("/proj") ("CONSTANT") ("AUTO")).1
    ("absent.svg") rfl rfl

/-! Claim C8. -/

/-- Claim C8 (confirmed): when the first post-separator argument lacks
the .svg extension or does not name an existing file, the script silently
builds the 3D text logo and completes normally; no SVG is loaded and no
error is reported. -/
theorem logoMain_bad_argument_silently_falls_back (argv : List String)
    (isfile : String → Bool) (curveCount : String → Nat) (root dI dH a : String)
    (ha : (afterSep argv).head? = some a)
    (hbad : pendswith a (".svg") = false ∨ isfile a = false) :
    (logoMain argv isfile curveCount root dI dH).exit = ScriptExit.normal ∧
    LEv.textAdd logoBody ∈ (logoMain argv isfile curveCount root dI dH).trace ∧
    ∀ p, LEv.importSVG p ∉ (logoMain argv isfile curveCount root dI dH).trace := by
  have hu : useSvgArg argv isfile = none := by
    apply useSvgArg_none ha
    rcases hbad with hb | hb <;> simp [hb]
  refine ⟨?_, ?_, ?_⟩
  · simp only [logoMain, hu, logoFinish]
  · simp only [logoMain, hu, logoFinish_trace, createTextLogo]
    simp
  · intro p
    simp only [logoMain, hu, logoFinish_trace, createTextLogo]
    simp

/-- Witness for C8 at a concrete non-SVG argument. -/
theorem logoMain_bad_argument_silently_falls_back_witness :
    (logoMain ["blender", "--", "logo.txt"] (fun _ => true) (fun _ => 1)
      ("/proj") ("CONSTANT") ("AUTO")).exit = ScriptExit.normal ∧
    LEv.textAdd logoBody ∈
      (logoMain ["blender", "--", "logo.txt"] (fun _ => true) (fun _ => 1)
        ("/proj") ("CONSTANT") ("AUTO")).trace ∧
    ∀ p, LEv.importSVG p ∉
      (logoMain ["blender", "--", "logo.txt"] (fun _ => true) (fun _ => 1)
        ("/proj") ("CONSTANT") ("AUTO")).trace :=
  logoMain_bad_argument_silently_falls_back ["blender", "--", "logo.txt"]
    (fun _ => true) (fun _ => 1) ("/proj") ("CONSTANT") ("AUTO") ("logo.txt")
    rfl (Or.inl (by decide))

/-! Claim C5. -/

/-- Claim C5 (confirmed for the logo script): whenever the logo script
loads an SVG, the loaded path is the first argument after the separator
token, that argument has the .svg extension and names an existing file,
and exactly one SVG load of it occurs.  The other two scripts of the
repository load no SVG at all: their embeddings (videoMain, sceneMain)
take no positional argument and produce no SVG event. -/
theorem logoMain_svg_import_uses_first_separator_arg (argv : List String)
    (isfile : String → Bool) (curveCount : String → Nat) (root dI dH p : String)
    (h : LEv.importSVG p ∈ (logoMain argv isfile curveCount root dI dH).trace) :
    (afterSep argv).head? = some p ∧ pendswith p (".svg") = true ∧
    isfile p = true ∧
    ((logoMain argv isfile curveCount root dI dH).trace.count
      (LEv.importSVG p)) = 1 := by
  cases hu : useSvgArg argv isfile with
  | none =>
    simp only [logoMain, hu, logoFinish_trace, createTextLogo] at h
    simp at h
  | some a =>
    have hsome := useSvgArg_some hu
    by_cases hn : curveCount a = 0
    · simp only [logoMain, hu, createFromSvg, hn, ite_true] at h ⊢
      simp at h
      cases h
      exact ⟨hsome.1, hsome.2.1, hsome.2.2, by simp⟩
    · simp only [logoMain, hu, createFromSvg, hn, ite_false, logoFinish_trace] at h ⊢
      simp at h
      cases h
      exact ⟨hsome.1, hsome.2.1, hsome.2.2,
        by simp [List.count_cons, List.count_append]⟩

/-- Witness for C5 at a concrete run that imports an SVG. -/
theorem logoMain_svg_import_uses_first_separator_arg_witness :
    (afterSep ["blender", "--", "logo.svg"]).head? = some ("logo.svg") ∧
    pendswith ("logo.svg") (".svg") = true ∧
    (fun _ => true : String → Bool) ("logo.svg") = true ∧
    ((logoMain ["blender", "--", "logo.svg"] (fun _ => true) (fun _ => 2)
      ("/proj") ("CONSTANT") ("AUTO")).trace.count
      (LEv.importSVG ("logo.svg"))) = 1 :=
  logoMain_svg_import_uses_first_separator_arg ["blender", "--", "logo.svg"]
    (fun _ => true) (fun _ => 2) ("/proj") ("CONSTANT") ("AUTO") ("logo.svg")
    (by decide)

/-! Claim C3. -/

/-- Counterexample to claim C3 as stated: in a concrete run of the logo
script the UV unwrap happens before the world-node construction, so the
claimed order (camera, lights, material and world nodes all before the UV
unwrap) fails on its world-node conjunct. -/
theorem logoMain_world_nodes_after_uv_unwrap :
    ¬ specClaimedOrder sampleLogoRun.trace := by
  intro h
  exact absurd h.2.2.2.1.2 (by decide)

/-- Claim C3 (corrected): the pipeline order of the logo script is
geometry build or import, then conversion to mesh, then camera, lights and
material nodes, then the UV unwrap, then the world nodes, then parenting
to the rotation empty, then the rotation keyframes, with the export
operator invoked last; the world-node construction follows the UV unwrap
rather than preceding it. -/
theorem logoMain_pipeline_order (argv : List String) (isfile : String → Bool)
    (curveCount : String → Nat) (root dI dH : String)
    (h : (logoMain argv isfile curveCount root dI dH).exit = ScriptExit.normal) :
    ∃ geo,
      (geo = [LEv.readFactorySettings, LEv.textAdd logoBody, LEv.convertToMesh] ∨
        ∃ a, geo = [LEv.readFactorySettings, LEv.importSVG a, LEv.joinCurves,
          LEv.convertToMesh]) ∧
      (logoMain argv isfile curveCount root dI dH).trace = geo ++
        [LEv.originSet, LEv.cameraAdd, LEv.lightAdd 300, LEv.lightAdd 200,
         LEv.materialNodes, LEv.uvProject, LEv.worldNodes, LEv.emptyAdd,
         LEv.setParent, LEv.setFrameEnd 120, LEv.keyframeInsert 1 (0, 0, 0),
         LEv.keyframeInsert 120 (0, q2pi, 0), LEv.setRenderSettings,
         LEv.exportGLTF (logoOutPath root)] := by
  cases hu : useSvgArg argv isfile with
  | none =>
    simp only [logoMain, hu]
    exact ⟨_, Or.inl rfl, logoFinish_trace _ _ _ _⟩
  | some a =>
    by_cases hn : curveCount a = 0
    · simp only [logoMain, hu, createFromSvg, hn, ite_true] at h
      simp at h
    · simp only [logoMain, hu, createFromSvg, hn, ite_false]
      exact ⟨_, Or.inr ⟨a, rfl⟩, logoFinish_trace _ _ _ _⟩

/-- Witness for C3 at a concrete normal run with no SVG argument. -/
theorem logoMain_pipeline_order_witness :
    ∃ geo,
      (geo = [LEv.readFactorySettings, LEv.textAdd logoBody, LEv.convertToMesh] ∨
        ∃ a, geo = [LEv.readFactorySettings, LEv.importSVG a, LEv.joinCurves,
          LEv.convertToMesh]) ∧
      (logoMain ["blender", "--background", "--python",
          "scripts/blender_jalen_edusei_glass.py"]
        (fun _ => false) (fun _ => 0) ("/proj") ("CONSTANT") ("AUTO")).trace = geo ++
        [LEv.originSet, LEv.cameraAdd, LEv.lightAdd 300, LEv.lightAdd 200,
         LEv.materialNodes, LEv.uvProject, LEv.worldNodes, LEv.emptyAdd,
         LEv.setParent, LEv.setFrameEnd 120, LEv.keyframeInsert 1 (0, 0, 0),
         LEv.keyframeInsert 120 (0, q2pi, 0), LEv.setRenderSettings,
         LEv.exportGLTF (logoOutPath ("/proj"))] :=
  logoMain_pipeline_order ["blender", "--background", "--python",
      "scripts/blender_jalen_edusei_glass.py"]
    (fun _ => false) (fun _ => 0) ("/proj") ("CONSTANT") ("AUTO") rfl

/-! Claim C10. -/

/-- Counterexample to claim C10 as stated: in a concrete run the value
keyframed on the Y channel at frame 120 is the script's decimal literal
6.283185307, which is strictly less than 2 * pi (pi truncated after the
ninth decimal), hence not equal to the exact 2 * pi the claim names. -/
theorem logoMain_frame120_keyframe_not_exactly_two_pi :
    ∃ fcs, sampleLogoRun.fcurves = some fcs ∧
      fcs.y.map KeyPoint.value = [0, q2pi] ∧
      ((q2pi : ℚ) : ℝ) < 2 * Real.pi ∧ ((q2pi : ℚ) : ℝ) ≠ 2 * Real.pi := by
  have hlt : ((q2pi : ℚ) : ℝ) < 2 * Real.pi := by
    have h := Real.pi_gt_d20
    rw [show ((q2pi : ℚ) : ℝ) = 6283185307 / 1000000000 by norm_num [q2pi]]
    nlinarith [h]
  refine ⟨{ x := [⟨1, 0, "BEZIER", "FREE", "FREE"⟩, ⟨120, 0, "BEZIER", "FREE", "FREE"⟩]
            y := [⟨1, 0, "BEZIER", "FREE", "FREE"⟩, ⟨120, q2pi, "BEZIER", "FREE", "FREE"⟩]
            z := [⟨1, 0, "BEZIER", "FREE", "FREE"⟩, ⟨120, 0, "BEZIER", "FREE", "FREE"⟩] },
    rfl, rfl, hlt, ne_of_lt hlt⟩

/-- Claim C10 (corrected): every normal run of the logo script sets
scene.frame_end to 120 and keyframes the empty's Euler rotation from
(0, 0, 0) at frame 1 to (0, 6.283185307, 0) at frame 120 — the rotation is
about the Y axis, with the script's decimal literal for 2 * pi (within
2e-10 of it) rather than exactly 2 * pi — and every keyframe point of all
three rotation channels ends BEZIER with FREE left and right handle
types, whatever the host defaults dI and dH for fresh points were. -/
theorem logoMain_rotation_animation_keyframes (argv : List String)
    (isfile : String → Bool) (curveCount : String → Nat) (root dI dH : String)
    (h : (logoMain argv isfile curveCount root dI dH).exit = ScriptExit.normal) :
    (logoMain argv isfile curveCount root dI dH).frame_end = some 120 ∧
    (logoMain argv isfile curveCount root dI dH).fcurves = some
      { x := [⟨1, 0, "BEZIER", "FREE", "FREE"⟩, ⟨120, 0, "BEZIER", "FREE", "FREE"⟩]
        y := [⟨1, 0, "BEZIER", "FREE", "FREE"⟩, ⟨120, q2pi, "BEZIER", "FREE", "FREE"⟩]
        z := [⟨1, 0, "BEZIER", "FREE", "FREE"⟩, ⟨120, 0, "BEZIER", "FREE", "FREE"⟩] } := by
  cases hu : useSvgArg argv isfile with
  | none =>
    simp only [logoMain, hu, logoFinish, addRotationAnimation, insertRotKey,
      setBezierFree]
    simp
  | some a =>
    by_cases hn : curveCount a = 0
    · simp only [logoMain, hu, createFromSvg, hn, ite_true] at h
      simp at h
    · simp only [logoMain, hu, createFromSvg, hn, ite_false, logoFinish,
        addRotationAnimation, insertRotKey, setBezierFree]
      simp

/-- Witness for C10 at a concrete normal run. -/
theorem logoMain_rotation_animation_keyframes_witness :
    sampleLogoRun.frame_end = some 120 ∧
    sampleLogoRun.fcurves = some
      { x := [⟨1, 0, "BEZIER", "FREE", "FREE"⟩, ⟨120, 0, "BEZIER", "FREE", "FREE"⟩]
        y := [⟨1, 0, "BEZIER", "FREE", "FREE"⟩, ⟨120, q2pi, "BEZIER", "FREE", "FREE"⟩]
        z := [⟨1, 0, "BEZIER", "FREE", "FREE"⟩, ⟨120, 0, "BEZIER", "FREE", "FREE"⟩] } :=
  logoMain_rotation_animation_keyframes ["blender", "--background", "--python",
      "scripts/blender_jalen_edusei_glass.py"]
    (fun _ => false) (fun _ => 0) ("/proj") ("CONSTANT") ("AUTO") rfl

/-! Claim C6. -/

/-- Claim C6 (confirmed): for any project root (nonempty, not ending in
the separator), the animation-render script's output filepath is the fixed
public/videos PNG-sequence pattern under the root, the scene-export script
exports to the fixed public/models/jaleneduseiwhite.glb path, and every
glTF export the logo script performs targets the fixed
public/models/jalen_edusei_glass.glb path, independent of all other
script inputs. -/
theorem output_paths_fixed_relative_to_root (root : String) (h1 : root ≠ "")
    (h2 : pendswith root ("/") = false) :
    (∀ s0 r1 r2, (videoMain s0 root r1 r2).finalScene.filepath
      = root ++ "/public/videos/jalenedusei_animation_####.png") ∧
    (∀ sc, SEv.exportGLTF (root ++ "/public/models/jaleneduseiwhite.glb")
      ∈ (sceneMain sc root).events) ∧
    (∀ argv isfile curveCount dI dH p,
      LEv.exportGLTF p ∈ (logoMain argv isfile curveCount root dI dH).trace →
      p = root ++ "/public/models/jalen_edusei_glass.glb") := by
  refine ⟨?_, ?_, ?_⟩
  · intro s0 r1 r2
    rw [videoMain_filepath, videoOutputPath_flat root h1 h2]
  · intro sc
    rw [← sceneOutPath_flat root h1 h2]
    simp [sceneMain]
  · intro argv isfile curveCount dI dH p hmem
    rw [← logoOutPath_flat root h1 h2]
    cases hu : useSvgArg argv isfile with
    | none =>
      simp only [logoMain, hu, logoFinish_trace, createTextLogo] at hmem
      simp at hmem
      exact hmem
    | some a =>
      by_cases hn : curveCount a = 0
      · simp only [logoMain, hu, createFromSvg, hn, ite_true] at hmem
        simp at hmem
      · simp only [logoMain, hu, createFromSvg, hn, ite_false,
          logoFinish_trace] at hmem
        simp at hmem
        exact hmem

/-- Witness for C6 at a concrete project root and concrete runs. -/
theorem output_paths_fixed_relative_to_root_witness :
    (videoMain sampleScene ("/proj") RunResult.ok RunResult.ok).finalScene.filepath
      = "/proj" ++ "/public/videos/jalenedusei_animation_####.png" ∧
    SEv.exportGLTF ("/proj" ++ "/public/models/jaleneduseiwhite.glb")
      ∈ (sceneMain ⟨"Scene", 1, 250, []⟩ ("/proj")).events :=
  ⟨(output_paths_fixed_relative_to_root ("/proj") (by decide) (by decide)).1
      sampleScene RunResult.ok RunResult.ok,
    (output_paths_fixed_relative_to_root ("/proj") (by decide) (by decide)).2.1
      ⟨"Scene", 1, 250, []⟩⟩

/-! Claim C7. -/

/-- Claim C7 (confirmed): the scene-export script only reads scene state;
the scene when it returns equals the scene it started from, the events
before the last two are the read-only diagnostic prints of the scene name,
frame range, object count, cameras and lights, and the run ends with the
export invocation followed by the file-size report. -/
theorem sceneMain_reads_only_then_exports_then_reports (sc : BScene)
    (root : String) :
    (sceneMain sc root).finalScene = sc ∧
    (sceneMain sc root).events =
      [SEv.printSceneInfo sc.name sc.frame_start sc.frame_end sc.objects.length,
       SEv.printCameras (((sc.objects.filter fun o => o.otype == "CAMERA").map
         SceneObj.name)),
       SEv.printLights (((sc.objects.filter fun o => o.otype == "LIGHT").map
         fun o => (o.name, o.data_type))),
       SEv.exportGLTF (sceneOutPath root),
       SEv.reportFileSize (sceneOutPath root)] := by
  exact ⟨rfl, rfl⟩

end Edusei
